import Mathlib

/-!
Shallow embedding of the balena-cli device promotion module
(`lib/utils/promote.ts`) and the device pin command
(`lib/commands/device/pin.ts`), together with proofs about the behaviour
of fleet resolution, device probing, configuration generation and the
remote configuration protocol.
-/

/-! ## Device identity record probing (promote.ts, getDeviceType / getOsVersion)

The probes run a multiline regex over the text of `/etc/os-release`:
`^SLUG=\x22([^\x22]+)\x22$` and `^VERSION_ID=\x22([^\x22]+)\x22$` with the `m` flag,
so matching is per line.  The record is embedded as its list of lines,
each line a list of characters. -/

/-- Characters of the key `SLUG` probed by getDeviceType (promote.ts line 150). -/
def slugKey : List Char := ['S', 'L', 'U', 'G']

/-- Characters of the key `VERSION_ID` probed by getOsVersion (promote.ts line 159). -/
def versionIdKey : List Char := ['V', 'E', 'R', 'S', 'I', 'O', 'N', '_', 'I', 'D']

/-- One KEY=\x22value\x22 line of the os-release identity record. -/
def mkLine (k v : List Char) : List Char := k ++ '=' :: '\x22' :: v ++ ['\x22']

/-- Uncurried `mkLine`, for rendering key/value pair lists. -/
def mkLineP (p : List Char × List Char) : List Char := mkLine p.1 p.2

/-- Renders a list of key/value pairs as the lines of an identity record. -/
def renderRecord (kvs : List (List Char × List Char)) : List (List Char) :=
  kvs.map mkLineP

/-- Strips an expected literal from the front of a line;
    `none` when the line does not start with it. -/
def dropPfx : List Char → List Char → Option (List Char)
  | [], l => some l
  | _ :: _, [] => none
  | a :: as, b :: bs => if a = b then dropPfx as bs else none

/-- Matches the tail of a probe line against a quote-free body followed by a
    closing quote at end of line (the `([^\x22]*)\x22$` part of the regex,
    the nonemptiness of the group is checked separately in `matchKV`). -/
def parseQuoted : List Char → Option (List Char)
  | [] => none
  | [c] => if c = '\x22' then some [] else none
  | c :: c2 :: rest =>
    if c = '\x22' then none
    else (parseQuoted (c2 :: rest)).map (fun v => c :: v)

/-- Per-line semantics of the anchored multiline regex `^KEY=\x22([^\x22]+)\x22$`
    used by the probes (promote.ts lines 150 and 159): the line is exactly the
    key, `=`, and a quoted nonempty quote-free value. -/
def matchKV (key line : List Char) : Option (List Char) :=
  (dropPfx (key ++ ['=', '\x22']) line).bind fun rest =>
    (parseQuoted rest).bind fun v =>
      if v.isEmpty then none else some v

/-- getDeviceType (promote.ts 148-155): the first line matching the SLUG
    regex yields the device type, otherwise the probe fails. -/
def getDeviceType (record : List (List Char)) : Except String (List Char) :=
  match record.findSome? (matchKV slugKey) with
  | some v => Except.ok v
  | none => Except.error "Failed to determine device type"

/-- getOsVersion (promote.ts 157-164): the first line matching the VERSION_ID
    regex yields the OS version, otherwise the probe fails. -/
def getOsVersion (record : List (List Char)) : Except String (List Char) :=
  match record.findSome? (matchKV versionIdKey) with
  | some v => Except.ok v
  | none => Except.error "Failed to determine OS version ID"

/-! ## assertDeviceIsCompatible (promote.ts 131-146) -/

/-- An error as seen by the CLI: either a user-facing ExpectedError or a raw
    lower-level error, with its message. -/
structure CliError where
  isExpectedErr : Bool
  message : String
  deriving DecidableEq

/-- promote.ts line 25. -/
def MIN_BALENAOS_VERSION : String := "v2.14.0"

/-- The fixed part of the compatibility error text up to the version constant
    (promote.ts 140-144, after stripIndent). -/
def compatibilityMsgHead (deviceIp : String) : String :=
  "Failed to execute \x22os-config --version\x22 on device \x22" ++ deviceIp ++
    "\x22.\nDepending on more specific error messages above, this may mean that the device\nis incompatible. Please ensure that the device is running a balenaOS release\nnewer than "

/-- The full compatibility error message naming MIN_BALENAOS_VERSION. -/
def compatibilityMessage (deviceIp : String) : String :=
  compatibilityMsgHead deviceIp ++ (MIN_BALENAOS_VERSION ++ ".")

/-- assertDeviceIsCompatible (promote.ts 131-146): on success returns unit; an
    ExpectedError from the exec layer is rethrown as is; any other execution
    failure is replaced by a single ExpectedError naming the minimum version.
    The result of running `os-config --version` over ssh is passed in as
    `execResult`. -/
def assertDeviceIsCompatible (deviceIp : String) (execResult : Except CliError String) :
    Except CliError Unit :=
  match execResult with
  | Except.ok _ => Except.ok ()
  | Except.error err =>
    if err.isExpectedErr then Except.error err
    else Except.error ⟨true, compatibilityMessage deviceIp⟩

/-- Modelled from the spec: `getLocalDeviceCmdStdout` (lib/utils/ssh) is not
    under src/.  Per the spec it "fails with a transport error on unreachable
    host or non-zero exit", and transport errors are raw lower-level failures,
    distinguished from user-facing expected errors. -/
def transportFailure (msg : String) : CliError := ⟨false, msg⟩

/-! ## configure / deconfigure (promote.ts 117-129) and the remote protocol -/

/-- A value of the generated configuration payload. -/
inductive ConfigValue where
  | vstr (s : String)
  | vnum (n : Int)
  | vbool (b : Bool)
  deriving DecidableEq

/-- The generated configuration payload, a JSON object given as key/value pairs. -/
abbrev ConfigPayload := List (String × ConfigValue)

/-- JSON escaping of a single character, as JSON.stringify does for the
    characters that can occur here. -/
def jsonEscapeChar (c : Char) : List Char :=
  if c = '\x22' then ['\\', '\x22']
  else if c = '\\' then ['\\', '\\']
  else if c = '\n' then ['\\', 'n']
  else if c = '\r' then ['\\', 'r']
  else if c = '\t' then ['\\', 't']
  else [c]

/-- JSON escaping of a string body. -/
def jsonEscape (s : String) : String := String.mk (s.data.flatMap jsonEscapeChar)

/-- JSON serialization of a payload value. -/
def jsonOfValue : ConfigValue → String
  | ConfigValue.vstr s => "\x22" ++ jsonEscape s ++ "\x22"
  | ConfigValue.vnum n => toString n
  | ConfigValue.vbool b => if b then "true" else "false"

/-- JSON.stringify of the payload object (promote.ts line 121). -/
def jsonStringify (config : ConfigPayload) : String :=
  "\x7b" ++
    String.intercalate ","
      (config.map fun p => "\x22" ++ jsonEscape p.1 ++ "\x22:" ++ jsonOfValue p.2) ++
    "\x7d"

/-- The base64 alphabet. -/
def b64Chars : List Char :=
  "ABCDEFGHIJKLMNOPQRSTUVWXYZabcdefghijklmnopqrstuvwxyz0123456789+/".toList

/-- Sextet to base64 character. -/
def b64Char (n : Nat) : Char := b64Chars.getD n 'A'

/-- RFC 4648 base64 of a byte sequence (Buffer.toString of promote.ts 122). -/
def base64EncodeBytes : List UInt8 → List Char
  | [] => []
  | [a] =>
    [b64Char (a.toNat / 4), b64Char (a.toNat % 4 * 16), '=', '=']
  | [a, b] =>
    [b64Char (a.toNat / 4), b64Char (a.toNat % 4 * 16 + b.toNat / 16),
      b64Char (b.toNat % 16 * 4), '=']
  | a :: b :: c :: rest =>
    b64Char (a.toNat / 4) :: b64Char (a.toNat % 4 * 16 + b.toNat / 16) ::
      b64Char (b.toNat % 16 * 4 + c.toNat / 64) :: b64Char (c.toNat % 64) ::
      base64EncodeBytes rest

/-- base64 of the UTF-8 bytes of a string (promote.ts line 122). -/
def base64Encode (s : String) : String :=
  String.mk (base64EncodeBytes s.toUTF8.toList)

/-- configure (promote.ts 117-125): the single command string handed to
    execCommand, which runs it on the device over ssh. -/
def configureCommand (config : ConfigPayload) : String :=
  "os-config join " ++ "\x22$(base64 -d <<< " ++ base64Encode (jsonStringify config) ++ ")\x22"

/-- deconfigure (promote.ts 127-129): the command handed to execCommand. -/
def deconfigureCommand : String := "os-config leave"

/-! ## generateApplicationConfig stripping step (promote.ts 446-452)

The payload itself is produced by the external `./config` module; the step
under src/ is the connman key stripping applied to the result. -/

/-- The final stripping step of generateApplicationConfig (promote.ts 446-452):
    when the payload's connectivity is 'connman', the `connectivity` and
    `files` keys are deleted. -/
def generateApplicationConfigStrip (config : ConfigPayload) : ConfigPayload :=
  if config.lookup "connectivity" = some (ConfigValue.vstr "connman") then
    config.filter fun p => !(p.1 == "connectivity" || p.1 == "files")
  else config

/-! ## selectLocalBalenaOsDevice (promote.ts 169-214) -/

/-- One discovery result entry. -/
structure LocalDevice where
  address : Option String
  host : Option String
  deriving DecidableEq

/-- Liveness of a candidate (promote.ts 181-198): candidates without a truthy
    address are skipped, the rest are probed with docker.ping; a probe failure
    means not responsive. -/
def isResponsive (ping : String → Bool) (d : LocalDevice) : Bool :=
  match d.address with
  | none => false
  | some a => if a.isEmpty then false else ping a

/-- The display name of a choice (promote.ts 210): `host (address)` with
    'untitled' for a falsy host. -/
def deviceChoiceName (d : LocalDevice) : String :=
  (match d.host with
    | some h => if h.isEmpty then "untitled" else h
    | none => "untitled") ++ " (" ++ d.address.getD "" ++ ")"

/-- Outcome of device location: either the failure thrown at promote.ts 202,
    or the interactive list prompt of promote.ts 205-213, recording its
    default, its choices (name and value) and the value the user's answer
    selects. -/
inductive LocateResult where
  | noDevices (msg : String)
  | prompted (dflt : Option String) (choices : List (String × Option String))
      (selected : Option String)
  deriving DecidableEq

/-- selectLocalBalenaOsDevice (promote.ts 169-214).  The discovery result and
    the liveness probe are inputs; `answer` is the index of the choice the
    user picks in the prompt (every answer of the list prompt is one of the
    listed choices). -/
def selectLocalBalenaOsDevice (devices : List LocalDevice) (ping : String → Bool)
    (answer : Nat) : LocateResult :=
  let responsiveDevices := devices.filter (isResponsive ping)
  if responsiveDevices.isEmpty then
    LocateResult.noDevices "Could not find any local balenaOS devices"
  else
    let choices := responsiveDevices.map fun d => (deviceChoiceName d, d.address)
    LocateResult.prompted ((devices.getD 0 ⟨none, none⟩).address) choices
      ((choices.getD (answer % choices.length) ("", none)).2)

/-! ## getOrSelectApplication (promote.ts 246-331) and createApplication -/

/-- A supported device type with its cpu architecture slug. -/
structure DeviceTypeInfo where
  slug : String
  arch : String
  deriving DecidableEq

/-- A fleet as returned by the API query, with its device type expanded. -/
structure Application where
  app_name : String
  slug : String
  deviceTypeSlug : String
  deriving DecidableEq

/-- Placeholder application for out-of-range list indexing. -/
def dfltApp : Application := ⟨"", "", ""⟩

/-- The data of a fleet creation session (promote.ts 365-418): the default
    offered by the name prompt, the first answer passing the collision check,
    and the organization and device type the fleet is created with. -/
structure CreatedApp where
  promptDefault : Option String
  finalName : Option String
  organization : String
  deviceType : String
  deriving DecidableEq

/-- Outcome of fleet resolution. -/
inductive FleetResolution where
  | selected (app : Application)
  | created (c : CreatedApp)
  | abortedCreation
  | notLoggedIn
  | noMatchingFleet
  deriving DecidableEq

/-- promote.ts 268-275: slugs of the device types whose architecture is
    compatible with the probed device's architecture. -/
def compatibleDeviceTypesOf (isCompat : String → String → Bool) (deviceArch : String)
    (allDeviceTypes : List DeviceTypeInfo) : List String :=
  (allDeviceTypes.filter fun dt => isCompat deviceArch dt.arch).map fun dt => dt.slug

/-- JS String.prototype.split with separator '/'. -/
def splitOnSlash : List Char → List (List Char)
  | [] => [[]]
  | c :: rest =>
    if c = '/' then [] :: splitOnSlash rest
    else
      match splitOnSlash rest with
      | [] => [[c]]
      | h :: t => (c :: h) :: t

/-- `appName.split('/')` of promote.ts line 289. -/
def splitAppName (s : String) : List String := (splitOnSlash s.data).map String.mk

/-- createApplication (promote.ts 365-418): requires a logged-in user; asks
    for a fleet name (default `dfltName`), re-asking while the collision check
    reports the name as taken; creates the fleet under the user's own
    organization with the given device type. -/
def createApplication (username : Option String) (deviceType : String)
    (dfltName : Option String) (answers : List String) (taken : String → Bool) :
    FleetResolution :=
  match username with
  | none => FleetResolution.notLoggedIn
  | some u =>
    FleetResolution.created ⟨dfltName, answers.find? (fun a => !(taken a)), u, deviceType⟩

/-- selectAppFromList (promote.ts 230-244): an interactive pick from the given
    list (displayed by fully qualified slug); `choice` is the index the user
    picks, always one of the listed entries. -/
def selectAppFromList (applications : List Application) (choice : Nat) : Application :=
  applications.getD (choice % applications.length) dfltApp

/-- The name-matched fleets of compatible device type (promote.ts 318-320). -/
def validAppsOf (compatibleDeviceTypes : List String) (applications : List Application) :
    List Application :=
  applications.filter fun app => compatibleDeviceTypes.contains app.deviceTypeSlug

/-- getOrSelectApplication (promote.ts 246-331), branch with a fleet name given
    (the no-name branch is createOrSelectApp below).  `queryResult` is the API
    response to the query built at 281-299 (by exact lowercased slug when the
    name contains '/', else by name); `confirmCreate` is the user's answer to
    the creation prompt; `answers`/`taken` drive the creation name loop; and
    `choice` is the user's pick in the disambiguation prompt. -/
def getOrSelectApplication (isCompat : String → String → Bool) (deviceArch : String)
    (allDeviceTypes : List DeviceTypeInfo) (deviceTypeSlug : String) (appName : String)
    (queryResult : List Application) (confirmCreate : Bool) (username : Option String)
    (answers : List String) (taken : String → Bool) (choice : Nat) : FleetResolution :=
  let compatibleDeviceTypes := compatibleDeviceTypesOf isCompat deviceArch allDeviceTypes
  let parts := splitAppName appName
  let name := if parts.length > 1 then parts.getD 1 "" else appName
  if queryResult.length = 0 then
    if confirmCreate then createApplication username deviceTypeSlug (some name) answers taken
    else FleetResolution.abortedCreation
  else
    let validApplications := validAppsOf compatibleDeviceTypes queryResult
    if validApplications.length = 0 then FleetResolution.noMatchingFleet
    else if validApplications.length = 1 then
      FleetResolution.selected (validApplications.getD 0 dfltApp)
    else FleetResolution.selected (selectAppFromList queryResult choice)

/-- createOrSelectApp (promote.ts 333-363), the no-name branch:
    `compatQueryResult` is the API response to the query whose filter restricts
    to fleets of compatible device type. -/
def createOrSelectApp (compatQueryResult : List Application) (confirmCreate : Bool)
    (username : Option String) (deviceType : String) (answers : List String)
    (taken : String → Bool) (choice : Nat) : FleetResolution :=
  if compatQueryResult.length = 0 then
    if confirmCreate then createApplication username deviceType none answers taken
    else FleetResolution.abortedCreation
  else FleetResolution.selected (selectAppFromList compatQueryResult choice)

/-! ## DevicePinCmd.run (commands/device/pin.ts 67-102) -/

/-- The observable effects of the pin command. -/
inductive PinEffect where
  | getDevice (uuid : String)
  | printLine (msg : String)
  | pinToRelease (uuid : String) (commit : String)
  deriving DecidableEq

/-- The message printed when no release commit is given (pin.ts 92-98). -/
def pinMessage (pinnedRelease : Option String) (appSlug : Option String) : String :=
  (match pinnedRelease with
    | some p => "This device is currently pinned to " ++ p ++ "."
    | none => "This device is not currently pinned to any release.") ++
    " \n\nTo see a list of all releases this device can be pinned to, run `balena releases " ++
    appSlug.getD "undefined" ++ "`."

/-- JS falsiness of the commit argument as tested at pin.ts 91
    (`if (!releaseToPinTo)`): both an absent argument and a supplied empty
    string are falsy. -/
def commitFalsy : Option String → Bool
  | none => true
  | some c => c.isEmpty

/-- DevicePinCmd.run (pin.ts 67-102) as its sequence of effects:
    it always fetches the device; when the commit argument is falsy (absent or
    the empty string, pin.ts 91) it prints the pinned state, otherwise it
    invokes pinToRelease with the given commit. `pinnedRelease` and `appSlug`
    are the expanded properties of the fetched device. -/
def devicePinRun (uuid : String) (releaseToPinTo : Option String)
    (pinnedRelease : Option String) (appSlug : Option String) : List PinEffect :=
  PinEffect.getDevice uuid ::
    (match releaseToPinTo with
      | none => [PinEffect.printLine (pinMessage pinnedRelease appSlug)]
      | some commit =>
        if commit.isEmpty then [PinEffect.printLine (pinMessage pinnedRelease appSlug)]
        else [PinEffect.pinToRelease uuid commit])

/-! ## Lemmas about the identity record parser -/

theorem dropPfx_self_append (p r : List Char) : dropPfx p (p ++ r) = some r := by
  induction p with
  | nil => rfl
  | cons a as ih => simp [dropPfx, ih]

theorem parseQuoted_body (v : List Char) (hq : '\x22' ∉ v) :
    parseQuoted (v ++ ['\x22']) = some v := by
  induction v with
  | nil => rfl
  | cons c v ih =>
    have hc : c ≠ '\x22' := fun h => hq (h ▸ List.mem_cons_self c v)
    have hq2 : '\x22' ∉ v := fun h => hq (List.mem_cons_of_mem c h)
    cases v with
    | nil => simp [parseQuoted, hc]
    | cons d v2 =>
      have hrec := ih hq2
      simp only [List.cons_append] at hrec ⊢
      simp [parseQuoted, hc, hrec]

theorem matchKV_mkLine_self (k v : List Char) (hv : v ≠ []) (hq : '\x22' ∉ v) :
    matchKV k (mkLine k v) = some v := by
  have h1 : mkLine k v = (k ++ ['=', '\x22']) ++ (v ++ ['\x22']) := by
    simp [mkLine]
  unfold matchKV
  rw [h1, dropPfx_self_append]
  simp [parseQuoted_body v hq, List.isEmpty_iff, hv]


theorem dropPfx_keys_ne (key : List Char) (hkey : '=' ∉ key) :
    ∀ (k : List Char), '=' ∉ k → k ≠ key →
      ∀ r1 r2, dropPfx (key ++ '=' :: r1) (k ++ '=' :: r2) = none := by
  induction key with
  | nil =>
    intro k hk hne r1 r2
    cases k with
    | nil => exact absurd rfl hne
    | cons b bs =>
      have hb : ¬ ('=' = b) := fun h => hk (h ▸ List.mem_cons_self b bs)
      simp [dropPfx, hb]
  | cons a as ih =>
    intro k hk hne r1 r2
    have ha : a ≠ '=' := fun h => hkey (h ▸ List.mem_cons_self a as)
    have hkey2 : '=' ∉ as := fun h => hkey (List.mem_cons_of_mem a h)
    cases k with
    | nil => simp [dropPfx, ha]
    | cons b bs =>
      by_cases hab : a = b
      · subst hab
        have hbs : bs ≠ as := by
          intro h
          exact hne (by rw [h])
        have hk2 : '=' ∉ bs := fun h => hk (List.mem_cons_of_mem a h)
        simp [dropPfx, ih hkey2 bs hk2 hbs r1 r2]
      · simp [dropPfx, hab]

theorem matchKV_mkLine_ne (key k v : List Char) (hkey : '=' ∉ key) (hk : '=' ∉ k)
    (hne : k ≠ key) : matchKV key (mkLine k v) = none := by
  have h1 : mkLine k v = k ++ '=' :: ('\x22' :: v ++ ['\x22']) := by
    simp [mkLine]
  have h2 : key ++ ['=', '\x22'] = key ++ '=' :: ['\x22'] := rfl
  unfold matchKV
  rw [h1, h2, dropPfx_keys_ne key hkey k hk hne]
  rfl

theorem matchKV_mkLine_empty (k : List Char) : matchKV k (mkLine k []) = none := by
  have h1 : mkLine k [] = (k ++ ['=', '\x22']) ++ ['\x22'] := by
    simp [mkLine]
  unfold matchKV
  rw [h1, dropPfx_self_append]
  rfl

theorem matchKV_some_ne_nil (key line v : List Char) (h : matchKV key line = some v) :
    v ≠ [] := by
  unfold matchKV at h
  cases hd : dropPfx (key ++ ['=', '\x22']) line with
  | none => rw [hd] at h; exact absurd h (by simp)
  | some rest =>
    rw [hd] at h
    simp only [Option.some_bind] at h
    cases hp : parseQuoted rest with
    | none => rw [hp] at h; exact absurd h (by simp)
    | some w =>
      rw [hp] at h
      simp only [Option.some_bind] at h
      by_cases hw : w.isEmpty
      · rw [if_pos hw] at h; exact absurd h (by simp)
      · rw [if_neg hw] at h
        have : w = v := by injection h
        subst this
        exact fun hnil => hw (by simp [hnil])

theorem findSome?_map_comp {α γ β : Type} (f : α → γ) (p : γ → Option β) :
    ∀ (L : List α), (L.map f).findSome? p = L.findSome? fun a => p (f a) := by
  intro L
  induction L with
  | nil => rfl
  | cons a L ih =>
    simp only [List.map_cons, List.findSome?_cons, ih]

theorem findSome?_all_none {α β : Type} (p : α → Option β) :
    ∀ (L : List α), (∀ a ∈ L, p a = none) → L.findSome? p = none := by
  intro L h
  induction L with
  | nil => rfl
  | cons a L ih =>
    rw [List.findSome?_cons, h a (List.mem_cons_self a L)]
    exact ih fun a ha => h a (List.mem_cons_of_mem _ ha)

theorem findSome?_eq_some_of {α β : Type} (p : α → Option β) (b : β) :
    ∀ (L : List α), (∀ a ∈ L, p a = none ∨ p a = some b) →
      (∃ a, a ∈ L ∧ p a = some b) → L.findSome? p = some b := by
  intro L hall hex
  induction L with
  | nil => exact absurd hex (by simp)
  | cons a L ih =>
    rw [List.findSome?_cons]
    rcases hall a (List.mem_cons_self a L) with h | h
    · rw [h]
      rcases hex with ⟨x, hx, hpx⟩
      rcases List.mem_cons.mp hx with rfl | hx2
      · rw [h] at hpx; exact absurd hpx (by simp)
      · exact ih (fun y hy => hall y (List.mem_cons_of_mem _ hy)) ⟨x, hx2, hpx⟩
    · rw [h]

/-- Claim C5: for every on-device identity record containing a line SLUG=(quoted s)
    and a line VERSION_ID=(quoted v), getDeviceType returns exactly s and
    getOsVersion returns exactly v, regardless of the order of the lines and of
    any additional unrelated KEY=(quoted value) lines in the record. -/
theorem C5_probe_returns_values (kvs : List (List Char × List Char)) (s v : List Char)
    (hs : s ≠ []) (hsq : '\x22' ∉ s) (hv : v ≠ []) (hvq : '\x22' ∉ v)
    (hmemS : (slugKey, s) ∈ kvs) (hmemV : (versionIdKey, v) ∈ kvs)
    (hall : ∀ p ∈ kvs, p = (slugKey, s) ∨ p = (versionIdKey, v) ∨
      ('=' ∉ p.1 ∧ p.1 ≠ slugKey ∧ p.1 ≠ versionIdKey)) :
    getDeviceType (renderRecord kvs) = Except.ok s ∧
    getOsVersion (renderRecord kvs) = Except.ok v := by
  have hslug : '=' ∉ slugKey := by decide
  have hver : '=' ∉ versionIdKey := by decide
  have hvs : versionIdKey ≠ slugKey := by decide
  have hsv : slugKey ≠ versionIdKey := by decide
  have hS : (renderRecord kvs).findSome? (matchKV slugKey) = some s := by
    rw [renderRecord, findSome?_map_comp]
    apply findSome?_eq_some_of
    · intro p hp
      rcases hall p hp with h | h | ⟨h1, h2, h3⟩
      · subst h
        exact Or.inr (matchKV_mkLine_self slugKey s hs hsq)
      · subst h
        exact Or.inl (matchKV_mkLine_ne slugKey versionIdKey v hslug hver hvs)
      · exact Or.inl (matchKV_mkLine_ne slugKey p.1 p.2 hslug h1 h2)
    · exact ⟨(slugKey, s), hmemS, matchKV_mkLine_self slugKey s hs hsq⟩
  have hV : (renderRecord kvs).findSome? (matchKV versionIdKey) = some v := by
    rw [renderRecord, findSome?_map_comp]
    apply findSome?_eq_some_of
    · intro p hp
      rcases hall p hp with h | h | ⟨h1, h2, h3⟩
      · subst h
        exact Or.inl (matchKV_mkLine_ne versionIdKey slugKey s hver hslug hsv)
      · subst h
        exact Or.inr (matchKV_mkLine_self versionIdKey v hv hvq)
      · exact Or.inl (matchKV_mkLine_ne versionIdKey p.1 p.2 hver h1 h3)
    · exact ⟨(versionIdKey, v), hmemV, matchKV_mkLine_self versionIdKey v hv hvq⟩
  constructor
  · simp [getDeviceType, hS]
  · simp [getOsVersion, hV]

theorem C5_probe_returns_values_witness :
    getDeviceType (renderRecord
        [(versionIdKey, "2.101.7".toList),
         ("PRETTY_NAME".toList, "balenaOS 2.101.7".toList),
         (slugKey, "raspberrypi4-64".toList)]) =
      Except.ok "raspberrypi4-64".toList ∧
    getOsVersion (renderRecord
        [(versionIdKey, "2.101.7".toList),
         ("PRETTY_NAME".toList, "balenaOS 2.101.7".toList),
         (slugKey, "raspberrypi4-64".toList)]) =
      Except.ok "2.101.7".toList :=
  C5_probe_returns_values
    [(versionIdKey, "2.101.7".toList),
     ("PRETTY_NAME".toList, "balenaOS 2.101.7".toList),
     (slugKey, "raspberrypi4-64".toList)]
    "raspberrypi4-64".toList "2.101.7".toList
    (by decide) (by decide) (by decide) (by decide) (by decide) (by decide) (by decide)

/-- Claim C6: for every on-device identity record missing the SLUG key,
    getDeviceType fails with a probe error, and for every record missing the
    VERSION_ID key, getOsVersion fails with a probe error; neither returns a
    value. -/
theorem C6_probe_missing_key (kvsA kvsB : List (List Char × List Char))
    (hA : ∀ p ∈ kvsA, '=' ∉ p.1 ∧ p.1 ≠ slugKey)
    (hB : ∀ p ∈ kvsB, '=' ∉ p.1 ∧ p.1 ≠ versionIdKey) :
    getDeviceType (renderRecord kvsA) = Except.error "Failed to determine device type" ∧
    getOsVersion (renderRecord kvsB) = Except.error "Failed to determine OS version ID" := by
  have hslug : '=' ∉ slugKey := by decide
  have hver : '=' ∉ versionIdKey := by decide
  constructor
  · have hS : (renderRecord kvsA).findSome? (matchKV slugKey) = none := by
      rw [renderRecord, findSome?_map_comp]
      apply findSome?_all_none
      intro p hp
      exact matchKV_mkLine_ne slugKey p.1 p.2 hslug (hA p hp).1 (hA p hp).2
    simp [getDeviceType, hS]
  · have hV : (renderRecord kvsB).findSome? (matchKV versionIdKey) = none := by
      rw [renderRecord, findSome?_map_comp]
      apply findSome?_all_none
      intro p hp
      exact matchKV_mkLine_ne versionIdKey p.1 p.2 hver (hB p hp).1 (hB p hp).2
    simp [getOsVersion, hV]

theorem C6_probe_missing_key_witness :
    getDeviceType (renderRecord
        [(versionIdKey, "2.101.7".toList), ("NAME".toList, "balenaOS".toList)]) =
      Except.error "Failed to determine device type" ∧
    getOsVersion (renderRecord
        [(slugKey, "raspberrypi4-64".toList), ("NAME".toList, "balenaOS".toList)]) =
      Except.error "Failed to determine OS version ID" :=
  C6_probe_missing_key
    [(versionIdKey, "2.101.7".toList), ("NAME".toList, "balenaOS".toList)]
    [(slugKey, "raspberrypi4-64".toList), ("NAME".toList, "balenaOS".toList)]
    (by decide) (by decide)

/-- Claim C9: a key that is present but has an empty quoted value is treated
    exactly as if it were absent: the line regex only accepts a nonempty quoted
    value, so a record whose SLUG and VERSION_ID lines all carry empty values
    makes both probes fail. -/
theorem C9_empty_value_rejected (kvs : List (List Char × List Char))
    (hall : ∀ p ∈ kvs, '=' ∉ p.1 ∧ (p.1 = slugKey → p.2 = []) ∧
      (p.1 = versionIdKey → p.2 = [])) :
    (∀ k : List Char, matchKV k (mkLine k []) = none) ∧
    (∀ k line w : List Char, matchKV k line = some w → w ≠ []) ∧
    getDeviceType (renderRecord kvs) = Except.error "Failed to determine device type" ∧
    getOsVersion (renderRecord kvs) = Except.error "Failed to determine OS version ID" := by
  have hslug : '=' ∉ slugKey := by decide
  have hver : '=' ∉ versionIdKey := by decide
  have hnone : ∀ (key : List Char), '=' ∉ key →
      (∀ p ∈ kvs, p.1 = key → p.2 = []) →
      (renderRecord kvs).findSome? (matchKV key) = none := by
    intro key hkey hempty
    rw [renderRecord, findSome?_map_comp]
    apply findSome?_all_none
    intro p hp
    by_cases h1 : p.1 = key
    · have h2 : p.2 = [] := hempty p hp h1
      show matchKV key (mkLine p.1 p.2) = none
      rw [h1, h2]
      exact matchKV_mkLine_empty key
    · exact matchKV_mkLine_ne key p.1 p.2 hkey (hall p hp).1 h1
  refine ⟨matchKV_mkLine_empty, matchKV_some_ne_nil, ?_, ?_⟩
  · have hS := hnone slugKey hslug fun p hp => (hall p hp).2.1
    simp [getDeviceType, hS]
  · have hV := hnone versionIdKey hver fun p hp => (hall p hp).2.2
    simp [getOsVersion, hV]

theorem C9_empty_value_rejected_witness :
    getDeviceType (renderRecord
        [(slugKey, ([] : List Char)), (versionIdKey, ([] : List Char))]) =
      Except.error "Failed to determine device type" ∧
    getOsVersion (renderRecord
        [(slugKey, ([] : List Char)), (versionIdKey, ([] : List Char))]) =
      Except.error "Failed to determine OS version ID" :=
  (C9_empty_value_rejected
    [(slugKey, ([] : List Char)), (versionIdKey, ([] : List Char))]
    (by decide)).2.2

/-! ## Lemmas about the connman stripping step -/

theorem lookup_strip_filter_none (config : ConfigPayload) (k : String)
    (hk : k = "connectivity" ∨ k = "files") :
    (config.filter fun p => !(p.1 == "connectivity" || p.1 == "files")).lookup k = none := by
  induction config with
  | nil => rfl
  | cons p rest ih =>
    rcases p with ⟨a, b⟩
    by_cases h1 : a = "connectivity"
    · have hcond : (!((a, b).1 == "connectivity" || (a, b).1 == "files")) = false := by
        simp [h1]
      rw [List.filter_cons, hcond]
      exact ih
    · by_cases h2 : a = "files"
      · have hcond : (!((a, b).1 == "connectivity" || (a, b).1 == "files")) = false := by
          simp [h2]
        rw [List.filter_cons, hcond]
        exact ih
      · have hka : ¬ k = a := by
          rcases hk with rfl | rfl
          · exact fun h => h1 h.symm
          · exact fun h => h2 h.symm
        have hcond : (!((a, b).1 == "connectivity" || (a, b).1 == "files")) = true := by
          simp [h1, h2]
        have hbeq : (k == a) = false := by simp [hka]
        rw [List.filter_cons, hcond]
        simp only [if_true]
        rw [List.lookup_cons, hbeq]
        exact ih

theorem lookup_strip_filter_frame (config : ConfigPayload) (k : String)
    (h1 : k ≠ "connectivity") (h2 : k ≠ "files") :
    (config.filter fun p => !(p.1 == "connectivity" || p.1 == "files")).lookup k =
      config.lookup k := by
  induction config with
  | nil => rfl
  | cons p rest ih =>
    rcases p with ⟨a, b⟩
    by_cases ha : a = "connectivity"
    · have hne : ¬ k = a := fun h => h1 (h.trans ha)
      have hka : (k == a) = false := by simp [hne]
      have hcond : (!((a, b).1 == "connectivity" || (a, b).1 == "files")) = false := by
        simp [ha]
      rw [List.filter_cons, hcond]
      rw [List.lookup_cons, hka]
      exact ih
    · by_cases hb : a = "files"
      · have hne : ¬ k = a := fun h => h2 (h.trans hb)
        have hka : (k == a) = false := by simp [hne]
        have hcond : (!((a, b).1 == "connectivity" || (a, b).1 == "files")) = false := by
          simp [hb]
        rw [List.filter_cons, hcond]
        rw [List.lookup_cons, hka]
        exact ih
      · have hcond : (!((a, b).1 == "connectivity" || (a, b).1 == "files")) = true := by
          simp [ha, hb]
        rw [List.filter_cons, hcond]
        simp only [if_true]
        rw [List.lookup_cons, List.lookup_cons]
        cases hka : (k == a) with
        | true => rfl
        | false => exact ih

/-- Claim C7: the stripping step of generateApplicationConfig removes the
    connectivity and files keys if and only if the payload's connectivity mode
    equals 'connman'; all other keys of the payload are unaffected. -/
theorem C7_connman_strip (config : ConfigPayload) :
    (config.lookup "connectivity" = some (ConfigValue.vstr "connman") →
      (generateApplicationConfigStrip config).lookup "connectivity" = none ∧
      (generateApplicationConfigStrip config).lookup "files" = none ∧
      (∀ k : String, k ≠ "connectivity" → k ≠ "files" →
        (generateApplicationConfigStrip config).lookup k = config.lookup k)) ∧
    (config.lookup "connectivity" ≠ some (ConfigValue.vstr "connman") →
      generateApplicationConfigStrip config = config) := by
  constructor
  · intro hconn
    rw [generateApplicationConfigStrip, if_pos hconn]
    exact ⟨lookup_strip_filter_none config "connectivity" (Or.inl rfl),
      lookup_strip_filter_none config "files" (Or.inr rfl),
      fun k h1 h2 => lookup_strip_filter_frame config k h1 h2⟩
  · intro hconn
    rw [generateApplicationConfigStrip, if_neg hconn]

theorem C7_connman_strip_witness :
    (generateApplicationConfigStrip
        [("applicationId", ConfigValue.vnum 123),
         ("connectivity", ConfigValue.vstr "connman"),
         ("files", ConfigValue.vstr "netcfg"),
         ("appUpdatePollInterval", ConfigValue.vnum 60000)]).lookup "appUpdatePollInterval" =
      some (ConfigValue.vnum 60000) ∧
    generateApplicationConfigStrip
        [("applicationId", ConfigValue.vnum 123),
         ("connectivity", ConfigValue.vstr "ethernet")] =
      [("applicationId", ConfigValue.vnum 123),
       ("connectivity", ConfigValue.vstr "ethernet")] := by
  constructor
  · rw [(C7_connman_strip
      [("applicationId", ConfigValue.vnum 123),
       ("connectivity", ConfigValue.vstr "connman"),
       ("files", ConfigValue.vstr "netcfg"),
       ("appUpdatePollInterval", ConfigValue.vnum 60000)]).1 (by decide)
        |>.2.2 "appUpdatePollInterval" (by decide) (by decide)]
    decide
  · exact (C7_connman_strip
      [("applicationId", ConfigValue.vnum 123),
       ("connectivity", ConfigValue.vstr "ethernet")]).2 (by decide)

/-- Claim C3: assertDeviceIsCompatible succeeds when the version-check command
    executes successfully, and every transport-level execution failure is
    wrapped into the single ExpectedError (the CompatibilityError) whose
    message names the fixed MIN_BALENAOS_VERSION constant; the raw transport
    error is never surfaced to the caller. -/
theorem C3_compatibility_error (deviceIp msg out : String) :
    assertDeviceIsCompatible deviceIp (Except.ok out) = Except.ok () ∧
    assertDeviceIsCompatible deviceIp (Except.error (transportFailure msg)) =
      Except.error ⟨true, compatibilityMessage deviceIp⟩ ∧
    (⟨true, compatibilityMessage deviceIp⟩ : CliError) ≠ transportFailure msg ∧
    (∃ pre suf : String,
      compatibilityMessage deviceIp = pre ++ (MIN_BALENAOS_VERSION ++ suf)) := by
  refine ⟨rfl, rfl, ?_, ⟨compatibilityMsgHead deviceIp, ".", rfl⟩⟩
  intro h
  have hb := congrArg CliError.isExpectedErr h
  simp [transportFailure] at hb

/-! ## Lemmas for the remote configuration protocol -/

theorem b64Char_bounded_ne_newline : ∀ n : Nat, n < 64 → b64Char n ≠ '\n' := by decide

theorem b64Char_ne_newline (n : Nat) : b64Char n ≠ '\n' := by
  rcases Nat.lt_or_ge n 64 with h | h
  · exact b64Char_bounded_ne_newline n h
  · have hlen : b64Chars.length ≤ n := by
      have h64 : b64Chars.length = 64 := by decide
      omega
    rw [b64Char, List.getD_eq_default b64Chars 'A' hlen]
    decide

theorem base64EncodeBytes_ne_newline :
    ∀ bs : List UInt8, ∀ c ∈ base64EncodeBytes bs, c ≠ '\n'
  | [] => by simp [base64EncodeBytes]
  | [a] => by
    simp only [base64EncodeBytes, List.forall_mem_cons]
    exact ⟨b64Char_ne_newline _, b64Char_ne_newline _, by decide, by decide,
      List.forall_mem_nil _⟩
  | [a, b] => by
    simp only [base64EncodeBytes, List.forall_mem_cons]
    exact ⟨b64Char_ne_newline _, b64Char_ne_newline _, b64Char_ne_newline _, by decide,
      List.forall_mem_nil _⟩
  | a :: b :: c :: rest => by
    simp only [base64EncodeBytes, List.forall_mem_cons]
    exact ⟨b64Char_ne_newline _, b64Char_ne_newline _, b64Char_ne_newline _,
      b64Char_ne_newline _, base64EncodeBytes_ne_newline rest⟩

/-- Claim C8: the remote command executed by configure is exactly the
    single-line invocation os-config join (quoted base64 -d substitution) with
    the base64 encoding of the JSON serialization of the payload, and the
    remote command executed by deconfigure is exactly os-config leave. -/
theorem C8_remote_protocol (config : ConfigPayload) :
    configureCommand config =
      "os-config join \x22$(base64 -d <<< " ++ base64Encode (jsonStringify config) ++
        ")\x22" ∧
    '\n' ∉ (configureCommand config).data ∧
    deconfigureCommand = "os-config leave" := by
  refine ⟨rfl, ?_, rfl⟩
  intro hmem
  unfold configureCommand at hmem
  rw [String.data_append, String.data_append, String.data_append] at hmem
  rcases List.mem_append.mp hmem with hmem2 | h3
  · rcases List.mem_append.mp hmem2 with hmem3 | hb
    · rcases List.mem_append.mp hmem3 with h1 | h2
      · exact absurd h1 (by decide)
      · exact absurd h2 (by decide)
    · exact base64EncodeBytes_ne_newline _ '\n' hb rfl
  · exact absurd h3 (by decide)

/-- Claim C10 counterexample: the commit argument can be supplied and yet be
    falsy: pin.ts 91 tests `!releaseToPinTo` (JS falsiness), not presence, so
    with the supplied empty-string commit the command prints the pinned state
    and never invokes pinToRelease, refuting "when the commit argument is
    supplied, the pin-to-release operation is invoked exactly once". -/
theorem C10_counterexample :
    devicePinRun "7cf02a6" (some "") (some "91165e5") (some "myorg/myfleet") =
      [PinEffect.getDevice "7cf02a6",
       PinEffect.printLine (pinMessage (some "91165e5") (some "myorg/myfleet"))] := by
  decide

/-- Claim C10 (amended): when the release commit argument is falsy (omitted or
    the supplied empty string), the pin command only fetches the device and
    prints its pinned state, never invoking pinToRelease; when a nonempty
    commit is supplied, pinToRelease is invoked exactly once with the given
    uuid and commit, and nothing is printed. -/
theorem C10_device_pin (uuid : String) (pinnedRelease appSlug : Option String) :
    devicePinRun uuid none pinnedRelease appSlug =
      [PinEffect.getDevice uuid, PinEffect.printLine (pinMessage pinnedRelease appSlug)] ∧
    devicePinRun uuid (some "") pinnedRelease appSlug =
      [PinEffect.getDevice uuid, PinEffect.printLine (pinMessage pinnedRelease appSlug)] ∧
    (∀ r : Option String, ∀ u c : String, commitFalsy r = true →
      PinEffect.pinToRelease u c ∉ devicePinRun uuid r pinnedRelease appSlug) ∧
    (∀ commit : String, commit.isEmpty = false →
      devicePinRun uuid (some commit) pinnedRelease appSlug =
        [PinEffect.getDevice uuid, PinEffect.pinToRelease uuid commit] ∧
      (devicePinRun uuid (some commit) pinnedRelease appSlug).filter
          (fun e => match e with
            | PinEffect.pinToRelease _ _ => true
            | _ => false) = [PinEffect.pinToRelease uuid commit] ∧
      (∀ m : String, PinEffect.printLine m ∉
        devicePinRun uuid (some commit) pinnedRelease appSlug)) := by
  have hprint : ∀ r : Option String, commitFalsy r = true →
      devicePinRun uuid r pinnedRelease appSlug =
        [PinEffect.getDevice uuid, PinEffect.printLine (pinMessage pinnedRelease appSlug)] := by
    intro r hr
    cases r with
    | none => rfl
    | some x =>
      have hx : x.isEmpty = true := hr
      simp only [devicePinRun, hx, if_true]
  refine ⟨rfl, hprint (some "") rfl, ?_, ?_⟩
  · intro r u c hr hmem
    rw [hprint r hr] at hmem
    rcases List.mem_cons.mp hmem with h | hmem2
    · exact PinEffect.noConfusion h
    rcases List.mem_cons.mp hmem2 with h | hmem3
    · exact PinEffect.noConfusion h
    exact List.not_mem_nil _ hmem3
  · intro commit hne
    have hd : devicePinRun uuid (some commit) pinnedRelease appSlug =
        [PinEffect.getDevice uuid, PinEffect.pinToRelease uuid commit] := by
      simp [devicePinRun, hne]
    refine ⟨hd, ?_, ?_⟩
    · rw [hd]
      rfl
    · intro m hmem
      rw [hd] at hmem
      rcases List.mem_cons.mp hmem with h | hmem2
      · exact PinEffect.noConfusion h
      rcases List.mem_cons.mp hmem2 with h | hmem3
      · exact PinEffect.noConfusion h
      exact List.not_mem_nil _ hmem3

theorem C10_device_pin_witness :
    devicePinRun "7cf02a6" (some "91165e5") none none =
      [PinEffect.getDevice "7cf02a6", PinEffect.pinToRelease "7cf02a6" "91165e5"] ∧
    PinEffect.pinToRelease "7cf02a6" "91165e5" ∉
      devicePinRun "7cf02a6" none none none :=
  ⟨((C10_device_pin "7cf02a6" none none).2.2.2 "91165e5" (by decide)).1,
   (C10_device_pin "7cf02a6" none none).2.2.1 none "7cf02a6" "91165e5" (by decide)⟩

/-! ## Lemmas for device location and fleet resolution -/

theorem getD_mem_of_lt {α : Type} (l : List α) (n : Nat) (d : α) (h : n < l.length) :
    l.getD n d ∈ l := by
  induction l generalizing n with
  | nil => simp at h
  | cons a t ih =>
    cases n with
    | zero => rw [List.getD_cons_zero]; exact List.mem_cons_self a t
    | succ m =>
      rw [List.getD_cons_succ]
      exact List.mem_cons_of_mem a (ih m (by simpa using h))

/-- Claim C2 counterexample: with exactly one responsive candidate the code
    still routes the result through the interactive list prompt of
    promote.ts 205-213 (there is no single-candidate shortcut), refuting the
    claim's "without presenting any interactive choice". -/
theorem C2_counterexample :
    selectLocalBalenaOsDevice [⟨some "192.168.1.50", some "host1"⟩] (fun _ => true) 0 =
      LocateResult.prompted (some "192.168.1.50")
        [("host1 (192.168.1.50)", some "192.168.1.50")] (some "192.168.1.50") := by
  decide

/-- Claim C2 (amended): when zero candidates are responsive, device location
    fails with the NoDevicesFound error; when exactly one candidate is
    responsive, an interactive list prompt is still presented, its choice list
    contains exactly that candidate, and the returned value is that
    candidate's address for every answer. -/
theorem C2_locate_devices (devices : List LocalDevice) (ping : String → Bool)
    (answer : Nat) :
    (devices.filter (isResponsive ping) = [] →
      selectLocalBalenaOsDevice devices ping answer =
        LocateResult.noDevices "Could not find any local balenaOS devices") ∧
    (∀ d : LocalDevice, ∀ a : String,
      devices.filter (isResponsive ping) = [d] → d.address = some a →
      selectLocalBalenaOsDevice devices ping answer =
        LocateResult.prompted ((devices.getD 0 ⟨none, none⟩).address)
          [(deviceChoiceName d, some a)] (some a)) := by
  constructor
  · intro h
    simp only [selectLocalBalenaOsDevice]
    rw [h]
    rfl
  · intro d a h ha
    simp only [selectLocalBalenaOsDevice]
    rw [h]
    simp [ha, Nat.mod_one]

theorem C2_locate_devices_witness :
    selectLocalBalenaOsDevice [⟨none, none⟩] (fun _ => true) 3 =
      LocateResult.noDevices "Could not find any local balenaOS devices" ∧
    selectLocalBalenaOsDevice [⟨some "10.0.0.2", none⟩] (fun _ => true) 7 =
      LocateResult.prompted (some "10.0.0.2")
        [("untitled (10.0.0.2)", some "10.0.0.2")] (some "10.0.0.2") :=
  ⟨(C2_locate_devices [⟨none, none⟩] (fun _ => true) 3).1 (by decide),
   (C2_locate_devices [⟨some "10.0.0.2", none⟩] (fun _ => true) 7).2
     ⟨some "10.0.0.2", none⟩ "10.0.0.2" (by decide) (by decide)⟩

/-- Claim C1 counterexample: with three fleets matching the name, two of
    compatible device type and one not, the disambiguation list handed to
    selectAppFromList is the unfiltered query result (promote.ts line 330
    passes `applications`, not `validApplications`), so the user's pick of
    index 2 makes fleet resolution return the architecture-incompatible
    fleet. -/
theorem C1_counterexample :
    getOrSelectApplication (fun a b => a == b) "aarch64"
      [⟨"dtA", "aarch64"⟩, ⟨"dtB", "aarch64"⟩, ⟨"dtC", "armv7hf"⟩]
      "dtA" "myfleet"
      [⟨"myfleet", "org1/myfleet", "dtA"⟩, ⟨"myfleet", "org2/myfleet", "dtB"⟩,
       ⟨"myfleet", "org3/myfleet", "dtC"⟩]
      true (some "alice") [] (fun _ => false) 2 =
      FleetResolution.selected ⟨"myfleet", "org3/myfleet", "dtC"⟩ ∧
    "dtC" ∉ compatibleDeviceTypesOf (fun a b => a == b) "aarch64"
      [⟨"dtA", "aarch64"⟩, ⟨"dtB", "aarch64"⟩, ⟨"dtC", "armv7hf"⟩] := by
  constructor
  · decide
  · decide

/-- Claim C1 (amended): on the named path, fleet resolution fails with
    NoMatchingFleet when no name-matched fleet is compatible, and returns the
    sole compatible fleet when exactly one is; but when more than one
    name-matched fleet is compatible, the interactive disambiguation list is
    the full unfiltered name-matched list, and resolution returns whichever
    entry the user picks, which may be architecture-incompatible.  On the
    no-name path the list offered is the API-filtered compatible list, so any
    selection from it is compatible. -/
theorem C1_fleet_resolution (isCompat : String → String → Bool) (deviceArch : String)
    (allDeviceTypes : List DeviceTypeInfo) (deviceTypeSlug appName : String)
    (queryResult : List Application) (confirmCreate : Bool) (username : Option String)
    (answers : List String) (taken : String → Bool) (choice : Nat) :
    (queryResult ≠ [] →
      validAppsOf (compatibleDeviceTypesOf isCompat deviceArch allDeviceTypes)
          queryResult = [] →
      getOrSelectApplication isCompat deviceArch allDeviceTypes deviceTypeSlug appName
        queryResult confirmCreate username answers taken choice =
        FleetResolution.noMatchingFleet) ∧
    ((validAppsOf (compatibleDeviceTypesOf isCompat deviceArch allDeviceTypes)
        queryResult).length = 1 →
      getOrSelectApplication isCompat deviceArch allDeviceTypes deviceTypeSlug appName
        queryResult confirmCreate username answers taken choice =
        FleetResolution.selected
          ((validAppsOf (compatibleDeviceTypesOf isCompat deviceArch allDeviceTypes)
            queryResult).getD 0 dfltApp) ∧
      (compatibleDeviceTypesOf isCompat deviceArch allDeviceTypes).contains
        ((validAppsOf (compatibleDeviceTypesOf isCompat deviceArch allDeviceTypes)
          queryResult).getD 0 dfltApp).deviceTypeSlug = true) ∧
    (1 < (validAppsOf (compatibleDeviceTypesOf isCompat deviceArch allDeviceTypes)
        queryResult).length →
      getOrSelectApplication isCompat deviceArch allDeviceTypes deviceTypeSlug appName
        queryResult confirmCreate username answers taken choice =
        FleetResolution.selected
          (queryResult.getD (choice % queryResult.length) dfltApp)) ∧
    (∀ compatQueryResult : List Application, compatQueryResult ≠ [] →
      (∀ app ∈ compatQueryResult,
        (compatibleDeviceTypesOf isCompat deviceArch allDeviceTypes).contains
          app.deviceTypeSlug = true) →
      createOrSelectApp compatQueryResult confirmCreate username deviceTypeSlug
          answers taken choice =
        FleetResolution.selected
          (compatQueryResult.getD (choice % compatQueryResult.length) dfltApp) ∧
      (compatibleDeviceTypesOf isCompat deviceArch allDeviceTypes).contains
        (compatQueryResult.getD (choice % compatQueryResult.length)
          dfltApp).deviceTypeSlug = true) := by
  refine ⟨?_, ?_, ?_, ?_⟩
  · intro hne hvalid
    have h0 : ¬ (queryResult.length = 0) := fun h => hne (List.length_eq_zero.mp h)
    simp only [getOrSelectApplication]
    rw [if_neg h0, hvalid]
    rfl
  · intro hlen
    have hq : ¬ (queryResult.length = 0) := by
      intro h
      have h2 : queryResult = [] := List.length_eq_zero.mp h
      rw [h2] at hlen
      simp [validAppsOf] at hlen
    constructor
    · simp only [getOrSelectApplication]
      rw [if_neg hq, hlen]
      rfl
    · have hmem : (validAppsOf (compatibleDeviceTypesOf isCompat deviceArch allDeviceTypes)
          queryResult).getD 0 dfltApp ∈
          validAppsOf (compatibleDeviceTypesOf isCompat deviceArch allDeviceTypes)
            queryResult := by
        apply getD_mem_of_lt
        omega
      exact (List.mem_filter.mp hmem).2
  · intro hlen
    have hq : ¬ (queryResult.length = 0) := by
      intro h
      have h2 : queryResult = [] := List.length_eq_zero.mp h
      rw [h2] at hlen
      simp [validAppsOf] at hlen
    have h1 : ¬ ((validAppsOf (compatibleDeviceTypesOf isCompat deviceArch allDeviceTypes)
        queryResult).length = 0) := by omega
    have h2 : ¬ ((validAppsOf (compatibleDeviceTypesOf isCompat deviceArch allDeviceTypes)
        queryResult).length = 1) := by omega
    simp only [getOrSelectApplication]
    rw [if_neg hq, if_neg h1, if_neg h2]
    rfl
  · intro compatQueryResult hne hall
    have h0 : ¬ (compatQueryResult.length = 0) := fun h => hne (List.length_eq_zero.mp h)
    constructor
    · simp only [createOrSelectApp]
      rw [if_neg h0]
      rfl
    · apply hall
      apply getD_mem_of_lt
      exact Nat.mod_lt choice (Nat.pos_of_ne_zero h0)

theorem C1_fleet_resolution_witness :
    getOrSelectApplication (fun a b => a == b) "aarch64"
      [⟨"dtA", "aarch64"⟩, ⟨"dtC", "armv7hf"⟩] "dtA" "myfleet"
      [⟨"myfleet", "org1/myfleet", "dtA"⟩, ⟨"myfleet", "org3/myfleet", "dtC"⟩]
      true (some "alice") [] (fun _ => false) 0 =
      FleetResolution.selected
        ((validAppsOf
          (compatibleDeviceTypesOf (fun a b => a == b) "aarch64"
            [⟨"dtA", "aarch64"⟩, ⟨"dtC", "armv7hf"⟩])
          [⟨"myfleet", "org1/myfleet", "dtA"⟩, ⟨"myfleet", "org3/myfleet", "dtC"⟩]).getD 0
          dfltApp) ∧
    (compatibleDeviceTypesOf (fun a b => a == b) "aarch64"
      [⟨"dtA", "aarch64"⟩, ⟨"dtC", "armv7hf"⟩]).contains
      ((validAppsOf
        (compatibleDeviceTypesOf (fun a b => a == b) "aarch64"
          [⟨"dtA", "aarch64"⟩, ⟨"dtC", "armv7hf"⟩])
        [⟨"myfleet", "org1/myfleet", "dtA"⟩, ⟨"myfleet", "org3/myfleet", "dtC"⟩]).getD 0
        dfltApp).deviceTypeSlug = true :=
  (C1_fleet_resolution (fun a b => a == b) "aarch64"
    [⟨"dtA", "aarch64"⟩, ⟨"dtC", "armv7hf"⟩] "dtA" "myfleet"
    [⟨"myfleet", "org1/myfleet", "dtA"⟩, ⟨"myfleet", "org3/myfleet", "dtC"⟩]
    true (some "alice") [] (fun _ => false) 0).2.1 (by decide)

theorem splitOnSlash_no_slash (xs : List Char) (h : '/' ∉ xs) :
    splitOnSlash xs = [xs] := by
  induction xs with
  | nil => rfl
  | cons c rest ih =>
    have hc : ¬ (c = '/') := fun hh => h (hh ▸ List.mem_cons_self c rest)
    have hr := ih fun hm => h (List.mem_cons_of_mem c hm)
    simp [splitOnSlash, hc, hr]

theorem splitOnSlash_append (ns rest : List Char) (h : '/' ∉ ns) :
    splitOnSlash (ns ++ '/' :: rest) = ns :: splitOnSlash rest := by
  induction ns with
  | nil => simp [splitOnSlash]
  | cons c ns2 ih =>
    have hc : ¬ (c = '/') := fun hh => h (hh ▸ List.mem_cons_self c ns2)
    have hr := ih fun hm => h (List.mem_cons_of_mem c hm)
    simp [splitOnSlash, hc, hr]

/-- Claim C4 counterexample: for the name "myorg/myfleet" with no matching
    fleet, the creation prompt is pre-filled with "myfleet", but the fleet is
    created under the authenticated username "alice" (promote.ts line 411
    passes `organization: username`), not under the namespace "myorg". -/
theorem C4_counterexample :
    getOrSelectApplication (fun a b => a == b) "aarch64" [⟨"dtA", "aarch64"⟩] "dtA"
      "myorg/myfleet" [] true (some "alice") ["myfleet"] (fun _ => false) 0 =
      FleetResolution.created ⟨some "myfleet", some "myfleet", "alice", "dtA"⟩ ∧
    "alice" ≠ "myorg" := by
  constructor
  · decide
  · decide

/-- Claim C4 (amended): for every fleet name of the form ns/name with no
    fleet matching the slug query, resolution prompts to create a fleet whose
    name prompt is pre-filled with the part after the slash; the fleet is
    created under the authenticated user's own namespace (the whoami
    username), not under ns. -/
theorem C4_create_from_slug (isCompat : String → String → Bool) (deviceArch : String)
    (allDeviceTypes : List DeviceTypeInfo) (deviceTypeSlug : String)
    (ns nm : List Char) (hns : '/' ∉ ns) (hnm : '/' ∉ nm)
    (u : String) (answers : List String) (taken : String → Bool) (choice : Nat) :
    getOrSelectApplication isCompat deviceArch allDeviceTypes deviceTypeSlug
      (String.mk (ns ++ '/' :: nm)) [] true (some u) answers taken choice =
      FleetResolution.created
        ⟨some (String.mk nm), answers.find? (fun a => !(taken a)), u, deviceTypeSlug⟩ := by
  have hsplit : splitAppName (String.mk (ns ++ '/' :: nm)) =
      [String.mk ns, String.mk nm] := by
    unfold splitAppName
    show (splitOnSlash (ns ++ '/' :: nm)).map String.mk = _
    rw [splitOnSlash_append ns nm hns, splitOnSlash_no_slash nm hnm]
    rfl
  simp only [getOrSelectApplication]
  rw [hsplit]
  simp [createApplication]

theorem C4_create_from_slug_witness :
    getOrSelectApplication (fun a b => a == b) "aarch64" [⟨"dtA", "aarch64"⟩] "dtA"
      (String.mk ("myorg".toList ++ '/' :: "myfleet".toList)) [] true (some "alice")
      ["myfleet"] (fun _ => false) 0 =
      FleetResolution.created
        ⟨some (String.mk "myfleet".toList), some "myfleet", "alice", "dtA"⟩ := by
  rw [C4_create_from_slug (fun a b => a == b) "aarch64" [⟨"dtA", "aarch64"⟩] "dtA"
    "myorg".toList "myfleet".toList (by decide) (by decide) "alice" ["myfleet"]
    (fun _ => false) 0]
  decide
